import Mathlib

/-!
Shallow embedding of the icv-toolkit repository (SVRF→PXL rule-deck
translator `mini_translator_prototype.py` and DRC result comparator
`compare_drc_results.py`), together with theorems settling the frozen
specification claims.

Strings are modelled as `List Char`.  Python regular expressions appear
only in a handful of fixed patterns whose character classes are pairwise
disjoint, so each is embedded as a deterministic greedy matcher that is
extensionally equal to the backtracking semantics of the original
pattern on those patterns.  Python `float` values are observed by the
program only through `str()` interpolation, so they are represented by
their canonical decimal rendering (exact for tokens of at most 15
significant digits below 10^16, which covers every micron-scale deck
value in scope); `float()` parse failures are modelled as `Except`
errors.  Rational numbers stand in for the coordinate floats of the
comparator, whose tolerance margins are many orders of magnitude wider
than double rounding error.
-/

namespace ICV

/-- Strings as lists of characters. -/
abbrev Str := List Char

/-- Coerce a Lean string literal to the `List Char` model. -/
def lit (s : String) : Str := s.toList

/-- Python `\s` (ASCII fragment): space, tab, newline, CR, VT, FF. -/
def isSpaceChar (c : Char) : Bool :=
  c = ' ' || c = '\t' || c = '\n' || c = '\x0d' || c = '\x0b' || c = '\x0c'

/-- Python `\w` (ASCII fragment): letters, digits, underscore. -/
def isWordChar (c : Char) : Bool :=
  c.isAlphanum || c = '_'

/-- The operator character class `[<>=!]` of the check patterns. -/
def isOpChar (c : Char) : Bool :=
  c = '<' || c = '>' || c = '=' || c = '!'

/-- The numeric-token character class `[\d.]` of the check patterns. -/
def isValChar (c : Char) : Bool :=
  c.isDigit || c = '.'

/-- Python `str.strip()` on ASCII text: drop whitespace at both ends. -/
def pyStrip (s : Str) : Str :=
  ((s.dropWhile isSpaceChar).reverse.dropWhile isSpaceChar).reverse

/-- Number of occurrences of a character, modelling `line.count(c)`. -/
def countChar (c : Char) (s : Str) : Nat :=
  s.countP (· = c)

/-- The text before the first occurrence of `c` (`s.split(c)[0]`). -/
def beforeChar (c : Char) (s : Str) : Str :=
  s.takeWhile (· ≠ c)

/-- The text after the first occurrence of `c` (empty when absent). -/
def afterChar (c : Char) (s : Str) : Str :=
  (s.dropWhile (· ≠ c)).drop 1

/-- `s.split(c)[1]`: between the first and second occurrence of `c`
(or to the end of the string), assuming `c` occurs. -/
def betweenChar (c : Char) (s : Str) : Str :=
  beforeChar c (afterChar c s)

/-- Python `'\n'.join`, over the character-list model. -/
def joinNL (ls : List Str) : Str :=
  match ls with
  | [] => []
  | [l] => l
  | l :: ls' => l ++ '\n' :: joinNL ls'

/-- Decimal rendering of a natural number (Python `str(int)`). -/
def natToStr (n : Nat) : Str := (toString n).toList

/-- Numeric value of a list of decimal digits (Python `int(token)`). -/
def natOfDigits (ds : Str) : Nat :=
  ds.foldl (fun acc c => acc * 10 + (c.toNat - '0'.toNat)) 0

/-- Membership of `kw` as a contiguous substring (`kw in block`). -/
def containsKw (kw : Str) : Str → Bool
  | [] => kw.isEmpty
  | c :: rest => kw.isPrefixOf (c :: rest) || containsKw kw rest

/-!  ### Python `float` model

`float(token)` for a token drawn from `[\d.]+`, observed through
`str()`.  The token parses iff it has at most one dot and at least one
digit; its rendering normalises `"007"` to `"7.0"`, `"0.50"` to `"0.5"`,
`".5"` to `"0.5"` and `"5."` to `"5.0"` — exactly `str(float(token))`
for tokens within the documented precision domain. -/

/-- Strip leading zeros of an integer-part digit string, keeping one
digit. -/
def stripIntPart (s : Str) : Str :=
  let t := s.dropWhile (· = '0')
  if t = [] then lit "0" else t

/-- Strip trailing zeros of a fractional-part digit string, keeping one
digit. -/
def stripFracPart (s : Str) : Str :=
  let t := (s.reverse.dropWhile (· = '0')).reverse
  if t = [] then lit "0" else t

/-- `str(float(token))` for a `[\d.]+` token: `Except` error models the
uncaught `ValueError` of CPython on tokens such as `"1.2.3"` or `"."`. -/
def pyFloatStr (t : Str) : Except Str Str :=
  if countChar '.' t ≤ 1 && t.any Char.isDigit then
    .ok (stripIntPart (beforeChar '.' t) ++ '.' ::
      stripFracPart (afterChar '.' t))
  else
    .error (lit "could not convert string to float" ++ t)

/-!  ### Intermediate representation (`mini_translator_prototype.py`) -/

/-- `LayerDef` dataclass: a named GDS layer. -/
structure LayerDef where
  name : Str
  gds_layer : Nat
  gds_datatype : Nat
  deriving DecidableEq, Repr

/-- `LayerDef.to_pxl`. -/
def LayerDef.to_pxl (l : LayerDef) : Str :=
  l.name ++ lit " = layer(" ++ natToStr l.gds_layer ++ lit ", " ++
    natToStr l.gds_datatype ++ lit ");"

/-- The check-node variants appended to `SVRFParser.rules`.  The
`value` field carries the canonical decimal rendering of the parsed
float (see `pyFloatStr`). -/
inductive CheckNode where
  | width (rule_name layer operator value : Str) (comment : Option Str)
  | spacing (rule_name layer operator value : Str) (comment : Option Str)
  | enclosure (rule_name outer_layer inner_layer operator value : Str)
      (comment : Option Str)
  | boolOp (result_name operation layer1 : Str) (layer2 : Option Str)
      (comment : Option Str)
  deriving DecidableEq, Repr

/-- Optional leading `// comment` line (Python truthiness: an absent or
empty comment produces no line). -/
def commentLines (c : Option Str) : List Str :=
  match c with
  | some s => if s = [] then [] else [lit "// " ++ s]
  | none => []

/-- ASCII upper-casing, modelling Python `str.upper()` on ASCII text. -/
def pyUpper (s : Str) : Str := s.map Char.toUpper

/-- `to_pxl` of each check node, joined with `\n` exactly as in the
source dataclasses. -/
def CheckNode.to_pxl : CheckNode → Str
  | .width rn layer op v c =>
      joinNL (commentLines c ++
        [rn ++ lit "_violations = width(" ++ layer ++ lit ") " ++ op ++
           lit " " ++ v ++ lit ";",
         lit "drc_deck(" ++ rn ++ lit "_violations, \"" ++ rn ++
           lit "\", \"Width violation: " ++ op ++ lit " " ++ v ++
           lit "um\");"])
  | .spacing rn layer op v c =>
      joinNL (commentLines c ++
        [rn ++ lit "_violations = external_distance(" ++ layer ++
           lit ", " ++ layer ++ lit ") " ++ op ++ lit " " ++ v ++ lit ";",
         lit "drc_deck(" ++ rn ++ lit "_violations, \"" ++ rn ++
           lit "\", \"Spacing violation: " ++ op ++ lit " " ++ v ++
           lit "um\");"])
  | .enclosure rn outer inner op v c =>
      joinNL (commentLines c ++
        [rn ++ lit "_violations = external_enclosure(" ++ outer ++
           lit ", " ++ inner ++ lit ") " ++ op ++ lit " " ++ v ++ lit ";",
         lit "drc_deck(" ++ rn ++ lit "_violations, \"" ++ rn ++
           lit "\", \"Enclosure violation: " ++ op ++ lit " " ++ v ++
           lit "um\");"])
  | .boolOp res op l1 l2 c =>
      let pxl_op : Str :=
        if pyUpper op = lit "AND" then lit "and"
        else if pyUpper op = lit "OR" then lit "or"
        else if pyUpper op = lit "NOT" then lit "not"
        else lit "and"
      joinNL (commentLines c ++
        [match l2 with
         | some l2' =>
             if l2' = [] then res ++ lit " = " ++ pxl_op ++ lit " " ++ l1 ++ lit ";"
             else res ++ lit " = " ++ l1 ++ lit " " ++ pxl_op ++ lit " " ++
               l2' ++ lit ";"
         | none => res ++ lit " = " ++ pxl_op ++ lit " " ++ l1 ++ lit ";"])

/-!  ### Embedded regular-expression matchers

Each fixed pattern of the source is embedded as a greedy matcher.  In
every pattern the adjacent character classes (`\s`, `\w`, `[<>=!]`,
`[\d.]`, literal keywords) are pairwise disjoint at each quantifier
boundary, so greedy matching without backtracking computes the same
match and groups as CPython's backtracking engine. -/

/-- Tail of `KW\s+(\w+)\s*([<>=!]+)\s*([\d.]+)` after the keyword:
returns the three capture groups. -/
def matchCheckTail (cs : Str) : Option (Str × Str × Str) :=
  let sp := cs.takeWhile isSpaceChar
  let r1 := cs.dropWhile isSpaceChar
  if sp = [] then none else
  let w := r1.takeWhile isWordChar
  let r2 := r1.dropWhile isWordChar
  if w = [] then none else
  let r3 := r2.dropWhile isSpaceChar
  let op := r3.takeWhile isOpChar
  let r4 := r3.dropWhile isOpChar
  if op = [] then none else
  let r5 := r4.dropWhile isSpaceChar
  let v := r5.takeWhile isValChar
  if v = [] then none else some (w, op, v)

/-- Tail of `ENC\s+(\w+)\s+(\w+)\s*([<>=!]+)\s*([\d.]+)` after `ENC`:
returns the four capture groups. -/
def matchEncTail (cs : Str) : Option (Str × Str × Str × Str) :=
  let sp := cs.takeWhile isSpaceChar
  let r1 := cs.dropWhile isSpaceChar
  if sp = [] then none else
  let w1 := r1.takeWhile isWordChar
  let r2 := r1.dropWhile isWordChar
  if w1 = [] then none else
  let sp2 := r2.takeWhile isSpaceChar
  let r3 := r2.dropWhile isSpaceChar
  if sp2 = [] then none else
  let w2 := r3.takeWhile isWordChar
  let r4 := r3.dropWhile isWordChar
  if w2 = [] then none else
  let r5 := r4.dropWhile isSpaceChar
  let op := r5.takeWhile isOpChar
  let r6 := r5.dropWhile isOpChar
  if op = [] then none else
  let r7 := r6.dropWhile isSpaceChar
  let v := r7.takeWhile isValChar
  if v = [] then none else some (w1, w2, op, v)

/-- `re.search(KW + tail, s)` for the three-group check patterns:
leftmost occurrence of the keyword whose tail matches. -/
def searchCheck (kw : Str) : Str → Option (Str × Str × Str)
  | [] => none
  | c :: rest =>
      match (if kw.isPrefixOf (c :: rest)
             then matchCheckTail ((c :: rest).drop kw.length)
             else none) with
      | some g => some g
      | none => searchCheck kw rest

/-- `re.search` for the four-group `ENC` pattern. -/
def searchEnc (kw : Str) : Str → Option (Str × Str × Str × Str)
  | [] => none
  | c :: rest =>
      match (if kw.isPrefixOf (c :: rest)
             then matchEncTail ((c :: rest).drop kw.length)
             else none) with
      | some g => some g
      | none => searchEnc kw rest

/-- `re.match(r'LAYER\s+(\w+)\s+(\d+)(?:\s+(\d+))?', line)`: anchored
match returning name, layer number and optional datatype. -/
def matchLayerLine (cs : Str) : Option (Str × Nat × Option Nat) :=
  if (lit "LAYER").isPrefixOf cs then
    let r0 := cs.drop 5
    let sp := r0.takeWhile isSpaceChar
    let r1 := r0.dropWhile isSpaceChar
    if sp = [] then none else
    let w := r1.takeWhile isWordChar
    let r2 := r1.dropWhile isWordChar
    if w = [] then none else
    let sp2 := r2.takeWhile isSpaceChar
    let r3 := r2.dropWhile isSpaceChar
    if sp2 = [] then none else
    let d1 := r3.takeWhile Char.isDigit
    let r4 := r3.dropWhile Char.isDigit
    if d1 = [] then none else
    let sp3 := r4.takeWhile isSpaceChar
    let r5 := r4.dropWhile isSpaceChar
    let d2 := r5.takeWhile Char.isDigit
    if sp3 = [] || d2 = [] then some (w, natOfDigits d1, none)
    else some (w, natOfDigits d1, some (natOfDigits d2))
  else none

/-- One alternative of the anchored assignment pattern: the literal
operation keyword followed by `\s+(\w+)(?:\s+(\w+))?`; returns the
operand groups (the operation group is the alternative's literal
itself). -/
def matchAssignOp (opkw : Str) (cs : Str) : Option (Str × Option Str) :=
  if opkw.isPrefixOf cs then
    let r0 := cs.drop opkw.length
    let sp := r0.takeWhile isSpaceChar
    let r1 := r0.dropWhile isSpaceChar
    if sp = [] then none else
    let l1 := r1.takeWhile isWordChar
    let r2 := r1.dropWhile isWordChar
    if l1 = [] then none else
    let sp2 := r2.takeWhile isSpaceChar
    let r3 := r2.dropWhile isSpaceChar
    let l2 := r3.takeWhile isWordChar
    if sp2 = [] || l2 = [] then some (l1, none)
    else some (l1, some l2)
  else none

/-- `re.match(r'(\w+)\s*=\s*(AND|OR|NOT)\s+(\w+)(?:\s+(\w+))?', line)`:
returns result name, operation, first operand, optional second
operand.  The three alternatives begin with distinct letters, so at
most one applies at the match position. -/
def matchAssignLine (cs : Str) : Option (Str × Str × Str × Option Str) :=
  let res := cs.takeWhile isWordChar
  let r1 := cs.dropWhile isWordChar
  if res = [] then none else
  let r2 := r1.dropWhile isSpaceChar
  match r2 with
  | '=' :: r3 =>
      let r4 := r3.dropWhile isSpaceChar
      match matchAssignOp (lit "AND") r4 with
      | some (l1, l2) => some (res, lit "AND", l1, l2)
      | none =>
        match matchAssignOp (lit "OR") r4 with
        | some (l1, l2) => some (res, lit "OR", l1, l2)
        | none =>
          match matchAssignOp (lit "NOT") r4 with
          | some (l1, l2) => some (res, lit "NOT", l1, l2)
          | none => none
  | _ => none

/-!  ### Comment stripping and line segmentation -/

/-- Drop everything up to and including the first `*/`; `none` when the
comment is unterminated. -/
def dropToClose : Str → Option Str
  | [] => none
  | c :: r =>
      if (lit "*/").isPrefixOf (c :: r) then some (r.drop 1)
      else dropToClose r

/-- `re.sub(r'/\*.*?\*/', '', content, flags=re.DOTALL)`: remove every
non-greedy block comment; an unterminated `/*` is left verbatim.  The
fuel argument only bounds recursion depth: every step either emits a
character or removes a non-empty comment, so the initial fuel
`length + 1` used by `stripCComments` is never exhausted. -/
def stripCFuel : Nat → Str → Str
  | 0, cs => cs
  | _ + 1, [] => []
  | fuel + 1, '/' :: '*' :: rest =>
      match dropToClose rest with
      | some rest' => stripCFuel fuel rest'
      | none => '/' :: '*' :: rest
  | fuel + 1, c :: rest => c :: stripCFuel fuel rest

/-- Block-comment removal at adequate fuel. -/
def stripCComments (cs : Str) : Str :=
  stripCFuel (cs.length + 1) cs

/-- `content.split('\n')` (keeps empty segments, as Python does). -/
def splitLinesNL : Str → List Str
  | [] => [[]]
  | '\n' :: rest => [] :: splitLinesNL rest
  | c :: rest =>
      match splitLinesNL rest with
      | [] => [[c]]
      | l :: ls => (c :: l) :: ls

/-!  ### `SVRFParser` -/

/-- Parser state: the `layers` dict in key-insertion order and the
append-only `rules` list. -/
structure SVRFState where
  layers : List LayerDef
  rules : List CheckNode
  deriving DecidableEq, Repr

/-- The fresh parser of `SVRFParser.__init__`. -/
def SVRFState.empty : SVRFState := ⟨[], []⟩

/-- `self.layers[name] = layer` on an insertion-ordered dict: update in
place when the key exists, append otherwise. -/
def dictInsertLayer (ls : List LayerDef) (l : LayerDef) : List LayerDef :=
  if ls.any (fun x => x.name = l.name) then
    ls.map (fun x => if x.name = l.name then l else x)
  else ls ++ [l]

/-- `SVRFParser._parse_layer`: silently ignores non-matching lines. -/
def parseLayerInto (line : Str) (st : SVRFState) : SVRFState :=
  match matchLayerLine line with
  | some (name, gl, dt) =>
      { st with layers := dictInsertLayer st.layers ⟨name, gl, dt.getD 0⟩ }
  | none => st

/-- `SVRFParser._parse_rule_block`, as the list of nodes it appends
(at most one); a malformed numeric literal propagates as an uncaught
exception. -/
def parseRuleBlock (rule_name block : Str) (comment : Option Str) :
    Except Str (List CheckNode) :=
  if containsKw (lit "WIDTH") block then
    match searchCheck (lit "WIDTH") block with
    | some (layer, op, v) =>
        match pyFloatStr v with
        | .ok f => .ok [.width rule_name layer op f comment]
        | .error e => .error e
    | none => .ok []
  else if containsKw (lit "EXTERNAL") block then
    match searchCheck (lit "EXTERNAL") block with
    | some (layer, op, v) =>
        match pyFloatStr v with
        | .ok f => .ok [.spacing rule_name layer op f comment]
        | .error e => .error e
    | none => .ok []
  else if containsKw (lit "INTERNAL") block then
    match searchCheck (lit "INTERNAL") block with
    | some (layer, op, v) =>
        match pyFloatStr v with
        | .ok f => .ok [.spacing rule_name layer op f comment]
        | .error e => .error e
    | none => .ok []
  else if containsKw (lit "ENC") block then
    match searchEnc (lit "ENC") block with
    | some (outer, inner, op, v) =>
        match pyFloatStr v with
        | .ok f => .ok [.enclosure rule_name outer inner op f comment]
        | .error e => .error e
    | none => .ok []
  else .ok []

/-- `SVRFParser._parse_assignment`, as the list of nodes it appends
(at most one; never raises). -/
def parseAssignment (line : Str) : List CheckNode :=
  match matchAssignLine line with
  | some (res, op, l1, l2) =>
      let comment :=
        if containsKw (lit "@") line then some (pyStrip (betweenChar '@' line))
        else none
      [.boolOp res op l1 l2 comment]
  | none => []

/-- The inner `while` of `parse_file` collecting a brace-balanced rule
block: returns the collected raw lines and the remaining lines. -/
def collectBlock : List Str → Int → List Str × List Str
  | [], _ => ([], [])
  | l :: rest, bc =>
      if bc > 0 then
        (l :: (collectBlock rest
                (bc + (countChar '{' l : Int) - (countChar '}' l : Int))).1,
         (collectBlock rest
                (bc + (countChar '{' l : Int) - (countChar '}' l : Int))).2)
      else ([], l :: rest)

/-- The main loop of `SVRFParser.parse_file` over the pre-split lines.
The fuel argument only bounds recursion depth: each step consumes at
least the current head line (the remainder handed back by
`collectBlock` is a suffix of the tail), so the initial fuel
`length + 1` used by `parseLines` is never exhausted; exhaustion is
mapped to an error so that it could never fake a successful parse. -/
def parseLinesFuel : Nat → List Str → SVRFState → Except Str SVRFState
  | 0, _, _ => .error (lit "fuel exhausted")
  | _ + 1, [], st => .ok st
  | fuel + 1, l :: rest, st =>
      let line := pyStrip l
      if line = [] || (lit "//").isPrefixOf line then parseLinesFuel fuel rest st
      else if (lit "LAYER ").isPrefixOf line then
        parseLinesFuel fuel rest (parseLayerInto line st)
      else if containsKw (lit "\x7b") line then
        let rule_name := pyStrip (beforeChar '{' line)
        let comment :=
          if containsKw (lit "@") line then
            some (pyStrip (beforeChar '}' (betweenChar '@' line)))
          else none
        let bc : Int := (countChar '{' line : Int) - (countChar '}' line : Int)
        let block := joinNL (line :: (collectBlock rest bc).1)
        match parseRuleBlock rule_name block comment with
        | .error e => .error e
        | .ok delta =>
            parseLinesFuel fuel (collectBlock rest bc).2
              { st with rules := st.rules ++ delta }
      else if containsKw (lit "=") line && !(lit "LAYER").isPrefixOf line then
        parseLinesFuel fuel rest { st with rules := st.rules ++ parseAssignment line }
      else parseLinesFuel fuel rest st

/-- The `parse_file` line loop at adequate fuel. -/
def parseLines (ls : List Str) (st : SVRFState) : Except Str SVRFState :=
  parseLinesFuel (ls.length + 1) ls st

/-- `SVRFParser.parse_file` from raw file content (after reading):
strip block comments, split into lines, run the line loop. -/
def parseContent (content : Str) : Except Str SVRFState :=
  parseLines (splitLinesNL (stripCComments content)) SVRFState.empty

/-!  ### `PXLGenerator` -/

/-- The `// ====…====` banner line shared by all sections. -/
def bannerLine : Str :=
  lit "// " ++ List.replicate 76 '='

/-- `PXLGenerator.generate_header` (a fixed literal). -/
def generate_header : Str :=
  bannerLine ++ lit "\n" ++
  lit "// Automatically Generated by SVRF-to-PXL Translator (Prototype)\n" ++
  bannerLine ++ lit "\n" ++
  lit "// This file was automatically translated from Calibre SVRF format\n" ++
  lit "// Manual review and validation recommended\n" ++
  bannerLine ++ lit "\n\n" ++
  lit "#include <icv.rh>\n\n"

/-- `sorted(layers.values(), key=lambda x: x.gds_layer)`: Python's
sort is stable, and all stable sorts with respect to the same total
preorder agree, so it is modelled by the stable
`List.insertionSort`. -/
def pySortLayers (ls : List LayerDef) : List LayerDef :=
  ls.insertionSort (fun a b => a.gds_layer ≤ b.gds_layer)

/-- `PXLGenerator.generate_layers`. -/
def generate_layers (layers : List LayerDef) : Str :=
  joinNL ([bannerLine, lit "// LAYER DEFINITIONS", bannerLine ++ lit "\n"] ++
    (pySortLayers layers).map LayerDef.to_pxl ++ [[]])

/-- `PXLGenerator.generate_rules`. -/
def generate_rules (rules : List CheckNode) : Str :=
  joinNL ([bannerLine, lit "// DRC RULES", bannerLine ++ lit "\n"] ++
    rules.flatMap (fun r => [r.to_pxl, []]))

/-- `PXLGenerator.generate_footer` (a fixed literal). -/
def generate_footer : Str :=
  bannerLine ++ lit "\n// END OF DRC DECK\n" ++ bannerLine ++ lit "\n"

/-- `PXLGenerator.generate`: the full render of a parsed deck. -/
def generate (st : SVRFState) : Str :=
  joinNL [generate_header, generate_layers st.layers,
          generate_rules st.rules, generate_footer]

/-!  ### Driver (`main`) -/

/-- Exit-code model of `main`: the input file either exists with the
given content or does not; output writing either succeeds or raises.
A `FileNotFoundError` or any exception during parse/generate/write is
caught at top level and turns into exit code 1; otherwise `main`
returns 0. -/
def mainRun (inputExists : Bool) (content : Str) (outputWritable : Bool) :
    Nat :=
  if !inputExists then 1
  else
    match parseContent content with
    | .error _ => 1
    | .ok _ => if !outputWritable then 1 else 0

/-!  ### DRC result comparator (`compare_drc_results.py`)

Coordinates are Python floats in the source; they are modelled as
rationals.  All comparisons the claims exercise have margins (≥ 10⁻⁴)
that dwarf double rounding error (≤ 10⁻¹²), so the rational model and
the float program agree on them. -/

/-- The `Violation` dataclass. -/
structure Violation where
  rule : Str
  x : ℚ
  y : ℚ
  vtype : Str
  deriving DecidableEq, Repr

/-- `DRCComparator._violations_equal`: same rule name and both
coordinates within the comparator's tolerance. -/
def violationsEqualTol (tol : ℚ) (v1 v2 : Violation) : Bool :=
  decide (v1.rule = v2.rule) && decide (|v1.x - v2.x| < tol) &&
    decide (|v1.y - v2.y| < tol)

/-- `Violation.__eq__`: the dataclass equality with the hard-coded
`0.001` tolerance. -/
def violationDunderEq (v1 v2 : Violation) : Bool :=
  violationsEqualTol (1 / 1000) v1 v2

/-- Round-half-to-even of a rational to an integer (Python `round`). -/
def roundHalfEven (q : ℚ) : ℤ :=
  if q - ⌊q⌋ < 1 / 2 then ⌊q⌋
  else if 1 / 2 < q - ⌊q⌋ then ⌊q⌋ + 1
  else if ⌊q⌋ % 2 = 0 then ⌊q⌋ else ⌊q⌋ + 1

/-- Python `round(x, 3)` on the rational model. -/
def pyRound3 (q : ℚ) : ℚ :=
  (roundHalfEven (q * 1000) : ℚ) / 1000

/-- `Violation.__hash__` key: `(rule, round(x, 3), round(y, 3))`
(hashing of distinct keys is modelled as collision-free). -/
def violationHashKey (v : Violation) : Str × ℚ × ℚ :=
  (v.rule, pyRound3 v.x, pyRound3 v.y)

/-- One insertion into a Python `set` of `Violation`s: the element is
absorbed exactly when an existing member has the same hash key and
compares `__eq__`-equal. -/
def pySetInsert (s : List Violation) (v : Violation) : List Violation :=
  if s.any (fun w => decide (violationHashKey w = violationHashKey v) &&
      violationDunderEq w v) then s
  else s ++ [v]

/-- `set(violations)` in insertion order. -/
def pySetOfViolations (vs : List Violation) : List Violation :=
  vs.foldl pySetInsert []

/-- `DRCComparator._violations_match`. -/
def violationsMatch (tol : ℚ) (cal icv : List Violation) : Bool :=
  if cal.length ≠ icv.length then false
  else
    (pySetOfViolations cal).all (fun cv =>
      (pySetOfViolations icv).any (fun iv => violationsEqualTol tol cv iv))

/-- A parsed violation dictionary: rule name → violation list, keys
unique and in insertion order. -/
abbrev ViolationDict := List (Str × List Violation)

/-- `d.get(rule, [])`. -/
def dictGet (d : ViolationDict) (k : Str) : List Violation :=
  ((d.find? (fun p => decide (p.1 = k))).map Prod.snd).getD []

/-- `rule in d`. -/
def dictHasKey (d : ViolationDict) (k : Str) : Bool :=
  d.any (fun p => decide (p.1 = k))

/-- Python string `<` (lexicographic by code point). -/
def strLt : Str → Str → Bool
  | [], [] => false
  | [], _ :: _ => true
  | _ :: _, [] => false
  | a :: as, b :: bs =>
      if a < b then true else if b < a then false else strLt as bs

/-- Total boolean order used to model `sorted` on rule names. -/
def strLe (a b : Str) : Bool := strLt a b || decide (a = b)

/-- The accumulating `results` dictionary of `DRCComparator.compare`. -/
structure CompareResults where
  matching_rules : List (Str × Nat)
  mismatched_rules : List (Str × Nat × Nat × Str)
  only_calibre : List (Str × Nat)
  only_icv : List (Str × Nat)
  total_calibre : Nat
  total_icv : Nat
  perfect_match : Bool
  deriving DecidableEq, Repr

/-- The body of the `for rule in sorted(all_rules)` loop. -/
def compareStep (tol : ℚ) (cal icv : ViolationDict) (acc : CompareResults)
    (rule : Str) : CompareResults :=
  let cal_viols := dictGet cal rule
  let icv_viols := dictGet icv rule
  let cc := cal_viols.length
  let ic := icv_viols.length
  let base := { acc with total_calibre := acc.total_calibre + cc,
                         total_icv := acc.total_icv + ic }
  if !dictHasKey icv rule then
    { base with only_calibre := base.only_calibre ++ [(rule, cc)] }
  else if !dictHasKey cal rule then
    { base with only_icv := base.only_icv ++ [(rule, ic)] }
  else if cc = ic then
    if violationsMatch tol cal_viols icv_viols then
      { base with matching_rules := base.matching_rules ++ [(rule, cc)] }
    else
      { base with mismatched_rules :=
          base.mismatched_rules ++ [(rule, cc, ic, lit "locations differ")] }
  else
    { base with mismatched_rules :=
        base.mismatched_rules ++ [(rule, cc, ic, lit "counts differ")] }

/-- `DRCComparator.compare`. -/
def compareResults (tol : ℚ) (cal icv : ViolationDict) : CompareResults :=
  let names := ((cal.map Prod.fst ++ icv.map Prod.fst).dedup).insertionSort
    (fun a b => strLe a b = true)
  let r := names.foldl (compareStep tol cal icv) ⟨[], [], [], [], 0, 0, false⟩
  { r with perfect_match :=
      decide (r.mismatched_rules = []) && decide (r.only_calibre = []) &&
        decide (r.only_icv = []) }

/-!  ## Theorems for the specification claims -/

/-- C3: the rule-block classifier selects the check variant by the
fixed keyword priority WIDTH, EXTERNAL, INTERNAL, ENC, independent of
textual position; at most one node is constructed, WIDTH yields a
width check, EXTERNAL and INTERNAL yield spacing checks, ENC yields an
enclosure check, and a block containing none of the keywords yields no
node. -/
theorem rule_block_keyword_priority (nm b : Str) (c : Option Str)
    (res : List CheckNode) (h : parseRuleBlock nm b c = .ok res) :
    res.length ≤ 1 ∧
    (containsKw (lit "WIDTH") b = true →
      ∀ r ∈ res, ∃ l op v, r = .width nm l op v c) ∧
    (containsKw (lit "WIDTH") b = false →
      containsKw (lit "EXTERNAL") b = true →
      ∀ r ∈ res, ∃ l op v, r = .spacing nm l op v c) ∧
    (containsKw (lit "WIDTH") b = false →
      containsKw (lit "EXTERNAL") b = false →
      containsKw (lit "INTERNAL") b = true →
      ∀ r ∈ res, ∃ l op v, r = .spacing nm l op v c) ∧
    (containsKw (lit "WIDTH") b = false →
      containsKw (lit "EXTERNAL") b = false →
      containsKw (lit "INTERNAL") b = false →
      containsKw (lit "ENC") b = true →
      ∀ r ∈ res, ∃ ol il op v, r = .enclosure nm ol il op v c) ∧
    (containsKw (lit "WIDTH") b = false →
      containsKw (lit "EXTERNAL") b = false →
      containsKw (lit "INTERNAL") b = false →
      containsKw (lit "ENC") b = false → res = []) := by
  unfold parseRuleBlock at h
  by_cases hW : containsKw (lit "WIDTH") b
  · rw [if_pos hW] at h
    match hs : searchCheck (lit "WIDTH") b with
    | none =>
        simp only [hs] at h
        cases h
        simp [hW]
    | some (l, op, v) =>
        simp only [hs] at h
        match hf : pyFloatStr v with
        | .error e => simp [hf] at h
        | .ok f =>
            simp only [hf, Except.ok.injEq] at h
            subst h
            refine ⟨by simp, ?_, by simp [hW], by simp [hW], by simp [hW],
              by simp [hW]⟩
            intro _ r hr
            simp only [List.mem_singleton] at hr
            exact ⟨l, op, f, hr⟩
  · rw [if_neg hW] at h
    by_cases hE : containsKw (lit "EXTERNAL") b
    · rw [if_pos hE] at h
      match hs : searchCheck (lit "EXTERNAL") b with
      | none =>
          simp only [hs] at h
          cases h
          simp [hW, hE]
      | some (l, op, v) =>
          simp only [hs] at h
          match hf : pyFloatStr v with
          | .error e => simp [hf] at h
          | .ok f =>
              simp only [hf, Except.ok.injEq] at h
              subst h
              refine ⟨by simp, by simp [hW], ?_, by simp [hE], by simp [hE],
                by simp [hE]⟩
              intro _ _ r hr
              simp only [List.mem_singleton] at hr
              exact ⟨l, op, f, hr⟩
    · rw [if_neg hE] at h
      by_cases hI : containsKw (lit "INTERNAL") b
      · rw [if_pos hI] at h
        match hs : searchCheck (lit "INTERNAL") b with
        | none =>
            simp only [hs] at h
            cases h
            simp [hW, hE, hI]
        | some (l, op, v) =>
            simp only [hs] at h
            match hf : pyFloatStr v with
            | .error e => simp [hf] at h
            | .ok f =>
                simp only [hf, Except.ok.injEq] at h
                subst h
                refine ⟨by simp, by simp [hW], by simp [hE], ?_,
                  by simp [hI], by simp [hI]⟩
                intro _ _ _ r hr
                simp only [List.mem_singleton] at hr
                exact ⟨l, op, f, hr⟩
      · rw [if_neg hI] at h
        by_cases hN : containsKw (lit "ENC") b
        · rw [if_pos hN] at h
          match hs : searchEnc (lit "ENC") b with
          | none =>
              simp only [hs] at h
              cases h
              simp [hW, hE, hI, hN]
          | some (ol, il, op, v) =>
              simp only [hs] at h
              match hf : pyFloatStr v with
              | .error e => simp [hf] at h
              | .ok f =>
                  simp only [hf, Except.ok.injEq] at h
                  subst h
                  refine ⟨by simp, by simp [hW], by simp [hE], by simp [hI],
                    ?_, by simp [hN]⟩
                  intro _ _ _ _ r hr
                  simp only [List.mem_singleton] at hr
                  exact ⟨ol, il, op, f, hr⟩
        · rw [if_neg hN] at h
          cases h
          simp [hW, hE, hI, hN]

/-- C3 witness: a block containing both WIDTH and ENC produces the
single width node. -/
theorem rule_block_keyword_priority_witness :
    ∃ l op v, CheckNode.width (lit "W1") (lit "M1") (lit "<") (lit "0.5")
      none = CheckNode.width (lit "W1") l op v none :=
  (rule_block_keyword_priority (lit "W1")
    (lit "W1 { WIDTH M1 < 0.5 ENC A B > 0.1 }") none
    [CheckNode.width (lit "W1") (lit "M1") (lit "<") (lit "0.5") none]
    (by rfl)).2.1 (by rfl)
    (CheckNode.width (lit "W1") (lit "M1") (lit "<") (lit "0.5") none)
    (List.mem_singleton.mpr rfl)

/-- C10: the keyword test shadows the lower-priority branches — when a
block contains a keyword as a substring but the corresponding body
pattern fails, no node at all is produced, even if a lower-priority
pattern would have matched; analogously at each lower level. -/
theorem keyword_shadowing (nm b : Str) (c : Option Str) :
    (containsKw (lit "WIDTH") b = true →
      searchCheck (lit "WIDTH") b = none →
      parseRuleBlock nm b c = .ok []) ∧
    (containsKw (lit "WIDTH") b = false →
      containsKw (lit "EXTERNAL") b = true →
      searchCheck (lit "EXTERNAL") b = none →
      parseRuleBlock nm b c = .ok []) ∧
    (containsKw (lit "WIDTH") b = false →
      containsKw (lit "EXTERNAL") b = false →
      containsKw (lit "INTERNAL") b = true →
      searchCheck (lit "INTERNAL") b = none →
      parseRuleBlock nm b c = .ok []) ∧
    (containsKw (lit "WIDTH") b = false →
      containsKw (lit "EXTERNAL") b = false →
      containsKw (lit "INTERNAL") b = false →
      containsKw (lit "ENC") b = true →
      searchEnc (lit "ENC") b = none →
      parseRuleBlock nm b c = .ok []) := by
  refine ⟨?_, ?_, ?_, ?_⟩
  · intro hW hs
    unfold parseRuleBlock
    rw [if_pos hW, hs]
  · intro hW hE hs
    unfold parseRuleBlock
    rw [if_neg (by simp [hW]), if_pos hE, hs]
  · intro hW hE hI hs
    unfold parseRuleBlock
    rw [if_neg (by simp [hW]), if_neg (by simp [hE]), if_pos hI, hs]
  · intro hW hE hI hN hs
    unfold parseRuleBlock
    rw [if_neg (by simp [hW]), if_neg (by simp [hE]), if_neg (by simp [hI]),
      if_pos hN, hs]

/-- C10 witness: the substring WIDTH inside the rule name BADWIDTH
suppresses a well-formed EXTERNAL check that the spacing pattern would
have matched. -/
theorem keyword_shadowing_witness :
    parseRuleBlock (lit "BADWIDTH") (lit "BADWIDTH { EXTERNAL M1 < 0.4 }")
      none = .ok [] ∧
    searchCheck (lit "EXTERNAL") (lit "BADWIDTH { EXTERNAL M1 < 0.4 }") =
      some (lit "M1", lit "<", lit "0.4") :=
  ⟨(keyword_shadowing (lit "BADWIDTH") (lit "BADWIDTH { EXTERNAL M1 < 0.4 }")
      none).1 (by rfl) (by rfl), by rfl⟩

/-- C4 counterexample: the assignment pattern's optional second operand
is independent of the operation, so `R = NOT A B` is accepted with two
operands and the resulting NOT node is rendered in the two-operand
form, contradicting the claim. -/
theorem not_arity_cex :
    parseAssignment (lit "R = NOT A B") =
      [.boolOp (lit "R") (lit "NOT") (lit "A") (some (lit "B")) none] ∧
    (CheckNode.boolOp (lit "R") (lit "NOT") (lit "A") (some (lit "B"))
      none).to_pxl = lit "R = A not B;" :=
  ⟨rfl, rfl⟩

/-- C4 amended: the parser accepts an optional second operand for every
operation including NOT, and generation renders the two-operand form
exactly when a non-empty second operand is present. -/
theorem not_optional_second_operand (res l1 l2 : Str) (c : Option Str)
    (h2 : l2 ≠ []) :
    (CheckNode.boolOp res (lit "NOT") l1 (some l2) c).to_pxl =
      joinNL (commentLines c ++
        [res ++ lit " = " ++ l1 ++ lit " not " ++ l2 ++ lit ";"]) ∧
    (CheckNode.boolOp res (lit "NOT") l1 none c).to_pxl =
      joinNL (commentLines c ++ [res ++ lit " = not " ++ l1 ++ lit ";"]) ∧
    parseAssignment (lit "R = NOT A B") =
      [.boolOp (lit "R") (lit "NOT") (lit "A") (some (lit "B")) none] := by
  have hop : (if pyUpper (lit "NOT") = lit "AND" then lit "and"
      else if pyUpper (lit "NOT") = lit "OR" then lit "or"
      else if pyUpper (lit "NOT") = lit "NOT" then lit "not"
      else lit "and") = lit "not" := by decide
  refine ⟨?_, ?_, by decide⟩
  · simp only [CheckNode.to_pxl, hop]
    rw [if_neg h2]
    simp only [List.append_assoc]
    rfl
  · simp only [CheckNode.to_pxl, hop]
    simp only [List.append_assoc]
    rfl

/-- C4 witness for the amended statement. -/
theorem not_optional_second_operand_witness :
    (CheckNode.boolOp (lit "x") (lit "NOT") (lit "a") (some (lit "b"))
      none).to_pxl =
      joinNL (commentLines none ++
        [lit "x" ++ lit " = " ++ lit "a" ++ lit " not " ++ lit "b" ++
          lit ";"]) :=
  (not_optional_second_operand (lit "x") (lit "a") (lit "b") none
    (by decide)).1

/-- C5 counterexample: the operation keyword is matched
case-sensitively — `and` and `And` produce no node at all, only `AND`
does, contradicting the claimed case-insensitivity. -/
theorem case_insensitive_cex :
    parseAssignment (lit "r = and A B") = [] ∧
    parseAssignment (lit "r = And A B") = [] ∧
    parseAssignment (lit "r = AND A B") =
      [.boolOp (lit "r") (lit "AND") (lit "A") (some (lit "B")) none] :=
  ⟨by decide, by decide, by decide⟩

theorem matchAssignLine_op (cs res op l1 : Str) (l2 : Option Str)
    (h : matchAssignLine cs = some (res, op, l1, l2)) :
    op = lit "AND" ∨ op = lit "OR" ∨ op = lit "NOT" := by
  unfold matchAssignLine at h
  simp only [] at h
  split at h
  · simp at h
  · split at h
    · split at h
      · left
        simp only [Option.some.injEq, Prod.mk.injEq] at h
        exact h.2.1.symm
      · split at h
        · right; left
          simp only [Option.some.injEq, Prod.mk.injEq] at h
          exact h.2.1.symm
        · split at h
          · right; right
            simp only [Option.some.injEq, Prod.mk.injEq] at h
            exact h.2.1.symm
          · simp at h
    · simp at h

/-- C5 amended: the operation keyword is recognized case-sensitively in
upper case only; every stored `BooleanOp` operation is exactly one of
`AND`, `OR`, `NOT`. -/
theorem assignment_operation_uppercase (line : Str) (n : CheckNode)
    (hn : n ∈ parseAssignment line) :
    ∃ res op l1 l2 c, n = .boolOp res op l1 l2 c ∧
      (op = lit "AND" ∨ op = lit "OR" ∨ op = lit "NOT") := by
  unfold parseAssignment at hn
  split at hn
  · rename_i r o a b hg
    simp only [List.mem_singleton] at hn
    exact ⟨r, o, a, b, _, hn, matchAssignLine_op _ _ _ _ _ hg⟩
  · simp at hn

/-- C5 witness for the amended statement. -/
theorem assignment_operation_uppercase_witness :
    ∃ res op l1 l2 c,
      CheckNode.boolOp (lit "r") (lit "AND") (lit "A") (some (lit "B"))
        none = .boolOp res op l1 l2 c ∧
      (op = lit "AND" ∨ op = lit "OR" ∨ op = lit "NOT") :=
  assignment_operation_uppercase (lit "r = AND A B")
    (.boolOp (lit "r") (lit "AND") (lit "A") (some (lit "B")) none)
    (by decide)

/-- C6 counterexample: the source value token `0.50` does not reappear
verbatim — the stored float renders as `0.5`, so the generated
registration text does not contain `0.50`. -/
theorem width_value_not_verbatim_cex :
    parseRuleBlock (lit "W1") (lit "W1 { WIDTH M1 < 0.50 }") none =
      .ok [.width (lit "W1") (lit "M1") (lit "<") (lit "0.5") none] ∧
    containsKw (lit "0.50") (lit "W1 { WIDTH M1 < 0.50 }") = true ∧
    containsKw (lit "0.50")
      ((CheckNode.width (lit "W1") (lit "M1") (lit "<") (lit "0.5")
        none).to_pxl) = false :=
  ⟨rfl, rfl, rfl⟩

/-- C6 amended: the rendered width check ends in a registration call
whose rule-name argument is the rule name and whose description
contains the operator verbatim and the value as rendered by
`str(float(token))`; the parser stores exactly that rendering. -/
theorem width_registration_amended :
    (∀ rn layer op v c, ∃ pre,
      (CheckNode.width rn layer op v c).to_pxl =
        pre ++ (lit "drc_deck(" ++ rn ++ lit "_violations, \"" ++ rn ++
          lit "\", \"Width violation: " ++ op ++ lit " " ++ v ++
          lit "um\");")) ∧
    (∀ nm b c l op v f, containsKw (lit "WIDTH") b = true →
      searchCheck (lit "WIDTH") b = some (l, op, v) →
      pyFloatStr v = .ok f →
      parseRuleBlock nm b c = .ok [.width nm l op f c]) := by
  constructor
  · intro rn layer op v c
    match c with
    | none =>
        refine ⟨rn ++ lit "_violations = width(" ++ layer ++ lit ") " ++
          op ++ lit " " ++ v ++ lit ";" ++ ['\n'], ?_⟩
        simp [CheckNode.to_pxl, commentLines, joinNL]
    | some s =>
        by_cases hs : s = []
        · subst hs
          refine ⟨rn ++ lit "_violations = width(" ++ layer ++ lit ") " ++
            op ++ lit " " ++ v ++ lit ";" ++ ['\n'], ?_⟩
          simp [CheckNode.to_pxl, commentLines, joinNL]
        · refine ⟨lit "// " ++ s ++ ['\n'] ++
            (rn ++ lit "_violations = width(" ++ layer ++ lit ") " ++
             op ++ lit " " ++ v ++ lit ";") ++ ['\n'], ?_⟩
          simp [CheckNode.to_pxl, commentLines, joinNL, hs]
  · intro nm b c l op v f hW hs hf
    unfold parseRuleBlock
    rw [if_pos hW]
    simp only [hs, hf]

/-- C6 witness for the amended statement. -/
theorem width_registration_amended_witness :
    parseRuleBlock (lit "W1") (lit "W1 { WIDTH M1 < 0.50 }") none =
      .ok [.width (lit "W1") (lit "M1") (lit "<") (lit "0.5") none] :=
  width_registration_amended.2 (lit "W1") (lit "W1 { WIDTH M1 < 0.50 }")
    none (lit "M1") (lit "<") (lit "0.50") (lit "0.5") (by rfl) (by rfl)
    (by rfl)

/-- C7: generation is a pure function of the rule deck — equal decks
render to byte-identical text. -/
theorem generate_deterministic (a b : SVRFState) (h : a = b) :
    generate a = generate b := by rw [h]

/-- C7 witness. -/
theorem generate_deterministic_witness :
    generate SVRFState.empty = generate SVRFState.empty :=
  generate_deterministic SVRFState.empty SVRFState.empty rfl

/-- C8: the driver returns 0 on success and a non-zero code when the
input file is missing or a parse exception is raised; the malformed
numeric literal `1.2.3` raises an uncaught parse exception that aborts
the run with a non-zero exit code. -/
theorem driver_exit_codes :
    (∀ c w, mainRun false c w = 1) ∧
    (∀ c w e, parseContent c = .error e → mainRun true c w = 1) ∧
    (∀ c st, parseContent c = .ok st → mainRun true c true = 0) ∧
    (∃ e, parseContent (lit "W1 { WIDTH M1 < 1.2.3 }") = .error e) ∧
    mainRun true (lit "W1 { WIDTH M1 < 1.2.3 }") true = 1 := by
  refine ⟨fun c w => rfl, ?_, ?_,
    ⟨lit "could not convert string to float1.2.3", rfl⟩, rfl⟩
  · intro c w e h
    simp [mainRun, h]
  · intro c st h
    simp [mainRun, h]

/-- C8 witness. -/
theorem driver_exit_codes_witness :
    mainRun true (lit "W1 { WIDTH M1 < 1.2.3 }") true = 1 ∧
    mainRun true (lit "LAYER M1 5") true = 0 :=
  ⟨driver_exit_codes.2.1 (lit "W1 { WIDTH M1 < 1.2.3 }") true
     (lit "could not convert string to float1.2.3") (by rfl),
   driver_exit_codes.2.2.1 (lit "LAYER M1 5") ⟨[⟨lit "M1", 5, 0⟩], []⟩
     (by rfl)⟩

/-- C9: with tolerance 0.001, a Calibre rule `M1.W.1` with a violation
at (10.5, 20.3) and an ICV rule `M1.W.1` with a violation at
(10.5003, 20.2997) are reported as matching. -/
theorem reconciliation_within_tolerance :
    (lit "M1.W.1", 1) ∈ (compareResults (1 / 1000)
      [(lit "M1.W.1", [⟨lit "M1.W.1", 10.5, 20.3, lit "polygon"⟩])]
      [(lit "M1.W.1",
        [⟨lit "M1.W.1", 10.5003, 20.2997, lit "unknown"⟩])]).matching_rules := by
  simp only [compareResults, compareStep, dictGet, dictHasKey, violationsMatch,
    pySetOfViolations, pySetInsert, violationsEqualTol, List.map,
    List.insertionSort, List.orderedInsert, List.foldl,
    List.find?, List.any, List.all, List.length, List.cons_append,
    List.nil_append]
  norm_num
  split
  · simp
  · rename_i hq
    refine absurd ?_ hq
    rw [abs_of_pos (by norm_num)]
    norm_num

/-!  ### C1: append-only rule order -/

theorem parseLayerInto_rules (line : Str) (st : SVRFState) :
    (parseLayerInto line st).rules = st.rules := by
  unfold parseLayerInto
  split <;> rfl

theorem parseLinesFuel_rules_append (fuel : Nat) :
    ∀ (ls : List Str) (st st' : SVRFState),
      parseLinesFuel fuel ls st = .ok st' → st.rules <+: st'.rules := by
  induction fuel with
  | zero => intro ls st st' h; simp [parseLinesFuel] at h
  | succ n ih =>
      intro ls st st' h
      match ls with
      | [] =>
          unfold parseLinesFuel at h
          cases h
          exact List.prefix_rfl
      | l :: rest =>
          unfold parseLinesFuel at h
          simp only [] at h
          split at h
          · exact ih _ _ _ h
          · split at h
            · have hp := ih _ _ _ h
              rwa [parseLayerInto_rules] at hp
            · split at h
              · split at h
                · exact absurd h (by simp)
                · have hp := ih _ _ _ h
                  exact List.IsPrefix.trans (List.prefix_append _ _) hp
              · split at h
                · have hp := ih _ _ _ h
                  exact List.IsPrefix.trans (List.prefix_append _ _) hp
                · exact ih _ _ _ h

theorem joinNL_cons (l : Str) (ls : List Str) (h : ls ≠ []) :
    joinNL (l :: ls) = l ++ '\n' :: joinNL ls := by
  match ls with
  | [] => contradiction
  | l' :: ls' => rfl

theorem joinNL_append (L M : List Str) (hL : L ≠ []) (hM : M ≠ []) :
    joinNL (L ++ M) = joinNL L ++ '\n' :: joinNL M := by
  induction L with
  | nil => contradiction
  | cons l L ih =>
      match L with
      | [] =>
          rw [List.singleton_append, joinNL_cons l M hM]
          rfl
      | l' :: L' =>
          rw [List.cons_append, joinNL_cons l ((l' :: L') ++ M) (by simp),
            joinNL_cons l (l' :: L') (by simp), ih (by simp)]
          simp

/-- C1: the parser only appends to the rule sequence — layer lines
never touch it — and the generator renders the sequence in order: the
render of `rs ++ [r]` is the render of `rs` followed by the render of
`r`. -/
theorem rules_order_preserved :
    (∀ (ls : List Str) (st st' : SVRFState),
      parseLines ls st = .ok st' → st.rules <+: st'.rules) ∧
    (∀ (line : Str) (st : SVRFState),
      (parseLayerInto line st).rules = st.rules) ∧
    (∀ (rs : List CheckNode) (r : CheckNode),
      generate_rules (rs ++ [r]) =
        generate_rules rs ++ '\n' :: (r.to_pxl ++ ['\n'])) := by
  refine ⟨?_, parseLayerInto_rules, ?_⟩
  · intro ls st st' h
    exact parseLinesFuel_rules_append _ _ _ _ h
  · intro rs r
    unfold generate_rules
    rw [List.flatMap_append, ← List.append_assoc,
      joinNL_append _ _ (by simp) (by simp)]
    rfl

/-- C1 witness: layer declarations and a prior rule list are preserved
in order, and rendering appends the new rule's text after the old
render. -/
theorem rules_order_preserved_witness :
    [CheckNode.boolOp (lit "X") (lit "AND") (lit "A") none none] <+:
      [CheckNode.boolOp (lit "X") (lit "AND") (lit "A") none none,
       CheckNode.boolOp (lit "R") (lit "OR") (lit "B") (some (lit "C"))
         none] ∧
    generate_rules ([] ++ [CheckNode.boolOp (lit "X") (lit "AND") (lit "A")
        none none]) =
      generate_rules [] ++ '\n' ::
        ((CheckNode.boolOp (lit "X") (lit "AND") (lit "A") none
          none).to_pxl ++ ['\n']) :=
  ⟨rules_order_preserved.1
    [lit "LAYER M1 5", lit "R = OR B C"]
    ⟨[], [CheckNode.boolOp (lit "X") (lit "AND") (lit "A") none none]⟩
    ⟨[⟨lit "M1", 5, 0⟩],
     [CheckNode.boolOp (lit "X") (lit "AND") (lit "A") none none,
      CheckNode.boolOp (lit "R") (lit "OR") (lit "B") (some (lit "C"))
        none]⟩ (by rfl),
   rules_order_preserved.2.2 []
     (CheckNode.boolOp (lit "X") (lit "AND") (lit "A") none none)⟩

/-!  ### C2: layer section ordering -/

/-- C2 counterexample: two layers with equal `gds_layer` are emitted in
insertion order, not by name — declaring `B` before `A` (both layer 5)
renders `B`'s line first although `A` is lexicographically smaller. -/
theorem layer_tie_order_cex :
    parseContent (lit "LAYER B 5\nLAYER A 5") =
      .ok ⟨[⟨lit "B", 5, 0⟩, ⟨lit "A", 5, 0⟩], []⟩ ∧
    pySortLayers [⟨lit "B", 5, 0⟩, ⟨lit "A", 5, 0⟩] =
      [⟨lit "B", 5, 0⟩, ⟨lit "A", 5, 0⟩] ∧
    generate_layers [⟨lit "B", 5, 0⟩, ⟨lit "A", 5, 0⟩] =
      joinNL ([bannerLine, lit "// LAYER DEFINITIONS",
        bannerLine ++ lit "\n"] ++
        [(⟨lit "B", 5, 0⟩ : LayerDef).to_pxl,
         (⟨lit "A", 5, 0⟩ : LayerDef).to_pxl] ++ [[]]) ∧
    strLt (lit "A") (lit "B") = true :=
  ⟨by rfl, by decide, by rfl, by decide⟩

/-- C2 amended: the generated layer section has exactly one line per
layer name and is sorted ascending by `gds_layer`; ties are broken by
insertion order (the sort is stable), not by name. -/
theorem layer_section_sorted (ls : List LayerDef)
    (hnd : (ls.map LayerDef.name).Nodup) :
    (List.Perm ((pySortLayers ls).map LayerDef.name)
      (ls.map LayerDef.name) ∧ ((pySortLayers ls).map LayerDef.name).Nodup) ∧
    ((pySortLayers ls).map LayerDef.gds_layer).Sorted (· ≤ ·) ∧
    (∀ a b : LayerDef, a.gds_layer = b.gds_layer →
      List.Sublist [a, b] ls → List.Sublist [a, b] (pySortLayers ls)) ∧
    generate_layers ls = joinNL ([bannerLine, lit "// LAYER DEFINITIONS",
      bannerLine ++ lit "\n"] ++ (pySortLayers ls).map LayerDef.to_pxl ++
      [[]]) := by
  have hperm : List.Perm ((pySortLayers ls).map LayerDef.name)
      (ls.map LayerDef.name) :=
    (List.perm_insertionSort _ ls).map _
  refine ⟨⟨hperm, hperm.nodup_iff.mpr hnd⟩, ?_, ?_, rfl⟩
  · haveI : IsTotal LayerDef (fun a b => a.gds_layer ≤ b.gds_layer) :=
      ⟨fun a b => Nat.le_total a.gds_layer b.gds_layer⟩
    haveI : IsTrans LayerDef (fun a b => a.gds_layer ≤ b.gds_layer) :=
      ⟨fun _ _ _ hab hbc => le_trans hab hbc⟩
    have hs := List.sorted_insertionSort
      (fun a b : LayerDef => a.gds_layer ≤ b.gds_layer) ls
    exact List.Pairwise.map LayerDef.gds_layer (fun _ _ h => h) hs
  · intro a b hab hsub
    exact List.pair_sublist_insertionSort (le_of_eq hab) hsub

/-- C2 witness: a concrete deck with a tie, unique names, stably
sorted. -/
theorem layer_section_sorted_witness :
    List.Sublist [(⟨lit "B", 5, 0⟩ : LayerDef), ⟨lit "A", 5, 0⟩]
      (pySortLayers [⟨lit "B", 5, 0⟩, ⟨lit "A", 5, 0⟩]) :=
  (layer_section_sorted [⟨lit "B", 5, 0⟩, ⟨lit "A", 5, 0⟩]
    (by decide)).2.2.1 ⟨lit "B", 5, 0⟩ ⟨lit "A", 5, 0⟩ rfl
    (List.Sublist.refl _)

end ICV
